import Mathlib

/-!
Verification of the Firefly training launcher (`src/train.py`).

The file embeds the decision logic of `init_components` and `main`:
the tokenizer special-token normalization, the task-type/family
dataset-and-collator dispatch, the `device_map` evaluation, and the
order of the calls issued by `main`.
-/

/-- ASCII lowering, mirroring Python `str.lower()` on the ASCII model
names that occur here. -/
def pyLower (s : String) : String := String.mk (s.toList.map Char.toLower)

/-- `charsStartWith hay needle` is true when `needle` is an initial
segment of `hay`. -/
def charsStartWith : List Char → List Char → Bool
  | _, [] => true
  | [], _ :: _ => false
  | h :: t, n :: m => (h == n) && charsStartWith t m

/-- `charsContain hay needle` is true when `needle` occurs contiguously
inside `hay`. -/
def charsContain : List Char → List Char → Bool
  | [], needle => needle.isEmpty
  | h :: t, needle => charsStartWith (h :: t) needle || charsContain t needle

/-- Python `needle in hay` on strings. -/
def pyIn (needle hay : String) : Bool := charsContain hay.toList needle.toList

/-- The tokenizer fields that `init_components` reads or writes:
the class name used for the family dispatch, the three special-token
identifiers (each possibly `None`), and Qwen's end-of-document id. -/
structure Tokenizer where
  className : String
  pad_token_id : Option Nat
  bos_token_id : Option Nat
  eos_token_id : Option Nat
  eod_id : Nat
  deriving DecidableEq, Repr

/-- Special-token normalization, from `src/train.py` lines 83-91.
`QWenTokenizer` gets pad/bos/eos all set to `eod_id`; `ChatGLMTokenizer`
is skipped; every other class asserts eos then bos are present (a `none`
result is the fatal `AssertionError`) and sets pad to eos only when pad
was `None`. -/
def normalize_tokenizer (tok : Tokenizer) : Option Tokenizer :=
  if tok.className = "QWenTokenizer" then
    some { tok with
      pad_token_id := some tok.eod_id
      bos_token_id := some tok.eod_id
      eos_token_id := some tok.eod_id }
  else if tok.className ≠ "ChatGLMTokenizer" then
    if tok.eos_token_id = none then none
    else if tok.bos_token_id = none then none
    else some { tok with
      pad_token_id :=
        if tok.pad_token_id = none then tok.eos_token_id else tok.pad_token_id }
  else
    some tok

/-- The custom run options that `init_components` consumes
(`CustomizedArguments` fields used in `src/train.py`). -/
structure CustomizedArguments where
  model_name_or_path : String
  task_type : String
  train_file : String
  max_seq_length : Nat
  tokenize_num_workers : Nat
  deriving DecidableEq, Repr

/-- The dataset classes `init_components` can instantiate, with the
constructor arguments the source passes them. -/
inductive TrainDataset where
  | SFTDataset (train_file : String) (tokenizer : Tokenizer) (max_seq_length : Nat)
  | ChatGLM2SFTDataset (train_file : String) (tokenizer : Tokenizer) (max_seq_length : Nat)
  | ChatGLM3SFTDataset (train_file : String) (tokenizer : Tokenizer) (max_seq_length : Nat)
  | MistralSFTDataset (train_file : String) (tokenizer : Tokenizer) (max_seq_length : Nat)
  | ZephyrSFTDataset (train_file : String) (tokenizer : Tokenizer) (max_seq_length : Nat)
  | QwenSFTDataset (train_file : String) (tokenizer : Tokenizer) (max_seq_length : Nat)
  | LazyPretrainDataset (train_file : String) (tokenizer : Tokenizer)
      (max_seq_length : Nat) (tokenize_num_workers : Nat)
  deriving DecidableEq, Repr

/-- The collator classes `init_components` can instantiate. -/
inductive DataCollator where
  | SFTDataCollator (tokenizer : Tokenizer) (max_seq_length : Nat)
  | PretrainCollator (tokenizer : Tokenizer) (max_seq_length : Nat)
  deriving DecidableEq, Repr

/-- Dataset/collator selection, from `src/train.py` lines 100-126:
first the `assert args.task_type in [sft, pretrain]` (an `.error`
result is the fatal `AssertionError`), then the pretrain branch, then
the ordered case-insensitive substring dispatch over the model name. -/
def select_dataset_collator (args : CustomizedArguments) (tokenizer : Tokenizer) :
    Except String (TrainDataset × DataCollator) :=
  if args.task_type = "sft" ∨ args.task_type = "pretrain" then
    if args.task_type = "pretrain" then
      .ok (.LazyPretrainDataset args.train_file tokenizer
             args.max_seq_length args.tokenize_num_workers,
           .PretrainCollator tokenizer args.max_seq_length)
    else
      let low := pyLower args.model_name_or_path
      let train_dataset : TrainDataset :=
        if pyIn "chatglm2" low then
          .ChatGLM2SFTDataset args.train_file tokenizer args.max_seq_length
        else if pyIn "chatglm3" low then
          .ChatGLM3SFTDataset args.train_file tokenizer args.max_seq_length
        else if pyIn "mistral" low || pyIn "mixtral" low then
          .MistralSFTDataset args.train_file tokenizer args.max_seq_length
        else if pyIn "zephyr" low then
          .ZephyrSFTDataset args.train_file tokenizer args.max_seq_length
        else if pyIn "qwen" low then
          .QwenSFTDataset args.train_file tokenizer args.max_seq_length
        else
          .SFTDataset args.train_file tokenizer args.max_seq_length
      .ok (train_dataset, .SFTDataCollator tokenizer args.max_seq_length)
  else
    .error "task_type should be in [sft, pretrain]"

/-- The externally visible calls issued by `main` and `init_components`,
in the order the source issues them. -/
inductive Event where
  | parseArgs
  | loadModel
  | loadTokenizer
  | normalizeTokenizer
  | buildDataset
  | buildCollator
  | buildTrainer
  | trainerTrain
  | saveModel
  | logMetrics
  | saveMetrics
  | saveState
  deriving DecidableEq, Repr

/-- Index of the first occurrence of `e` in `es` (length of `es` if absent). -/
def eventIdx (es : List Event) (e : Event) : Nat :=
  match es with
  | [] => 0
  | h :: t => if h = e then 0 else eventIdx t e + 1

/-- What running `init_components` leaves behind: the calls it issued,
the tokenizer state when it returned or failed, the dataset and collator
it constructed (if any), and the assertion message if it failed. -/
structure InitOutcome where
  events : List Event
  tokenizer : Tokenizer
  train_dataset : Option TrainDataset
  data_collator : Option DataCollator
  error : Option String
  deriving DecidableEq, Repr

/-- `init_components` from `src/train.py` lines 51-135: load the model,
load the tokenizer, normalize it in place, then (after the task-type
assert) build the dataset, the collator and the trainer.  A failed
assertion stops the run at that point; the tokenizer keeps whatever
state it had when the assertion fired. -/
def init_components (args : CustomizedArguments) (tok : Tokenizer) : InitOutcome :=
  let ev := [Event.loadModel, Event.loadTokenizer]
  match normalize_tokenizer tok with
  | none =>
      { events := ev, tokenizer := tok, train_dataset := none,
        data_collator := none,
        error := some "AssertionError: tokenizer bos or eos is None" }
  | some tok1 =>
      let ev := ev ++ [Event.normalizeTokenizer]
      match select_dataset_collator args tok1 with
      | .error msg =>
          { events := ev, tokenizer := tok1, train_dataset := none,
            data_collator := none, error := some msg }
      | .ok (ds, dc) =>
          { events := ev ++ [Event.buildDataset, Event.buildCollator, Event.buildTrainer],
            tokenizer := tok1, train_dataset := some ds,
            data_collator := some dc, error := none }

/-- The call sequence of `main` (`src/train.py` lines 138-154): parse
the arguments, run `init_components`, and on success train, save the
model/tokenizer, then log and save the metrics and the trainer state.
A fatal assertion inside `init_components` aborts the process there. -/
def main_events (args : CustomizedArguments) (tok : Tokenizer) : List Event :=
  let out := init_components args tok
  [Event.parseArgs] ++ out.events ++
    (if out.error = none then
      [Event.trainerTrain, Event.saveModel, Event.logMetrics,
       Event.saveMetrics, Event.saveState]
     else [])

/-- The local-variable environment of `init_components` after the
`if ddp:` statement (`src/train.py` lines 56-60): `device_map` is bound
only when `world_size != 1`. -/
def local_env (world_size : Nat) (local_rank : Nat) : List (String × Nat) :=
  if world_size ≠ 1 then [("device_map", local_rank)] else []

/-- Python name lookup: an unbound name raises `NameError`. -/
def lookup_name (env : List (String × Nat)) (x : String) : Except String Nat :=
  match env.lookup x with
  | some v => .ok v
  | none => .error ("NameError: name " ++ x ++ " is not defined")

/-- `int(os.environ.get("WORLD_SIZE", 1))` (`src/train.py` line 56). -/
def world_size_of (env_world_size : Option Nat) : Nat := env_world_size.getD 1

/-- Evaluation of the `device_map if not is_deepspeed_zero3_enabled()
else None` argument of the model-loading call (`src/train.py` line 66):
Python evaluates the name `device_map` exactly when ZeRO-3 is disabled. -/
def device_map_arg (env : List (String × Nat)) (zero3 : Bool) :
    Except String (Option Nat) :=
  if ¬ zero3 then
    match lookup_name env "device_map" with
    | .ok v => .ok (some v)
    | .error e => .error e
  else
    .ok none

example : pyIn "qwen" (pyLower "Qwen-7B-Chat") = true := by decide
example : pyIn "chatglm2" (pyLower "THUDM/chatglm2-6b") = true := by decide
example : pyIn "zephyr" (pyLower "meta-llama/Llama-2-7b") = false := by decide

/-- C3: for a tokenizer of class `QWenTokenizer`, normalization succeeds
and afterwards pad, bos and eos token identifiers all equal that
tokenizer's end-of-document identifier `eod_id`. -/
theorem qwen_normalization_sets_all_to_eod (tok : Tokenizer)
    (h : tok.className = "QWenTokenizer") :
    ∃ t, normalize_tokenizer tok = some t
      ∧ t.pad_token_id = some tok.eod_id
      ∧ t.bos_token_id = some tok.eod_id
      ∧ t.eos_token_id = some tok.eod_id := by
  refine ⟨{ tok with
    pad_token_id := some tok.eod_id
    bos_token_id := some tok.eod_id
    eos_token_id := some tok.eod_id }, ?_, rfl, rfl, rfl⟩
  simp [normalize_tokenizer, h]

/-- Witness for C3 at a concrete Qwen tokenizer. -/
theorem qwen_normalization_sets_all_to_eod_witness :
    ∃ t, normalize_tokenizer ⟨"QWenTokenizer", none, none, none, 151643⟩ = some t
      ∧ t.pad_token_id = some 151643
      ∧ t.bos_token_id = some 151643
      ∧ t.eos_token_id = some 151643 :=
  qwen_normalization_sets_all_to_eod ⟨"QWenTokenizer", none, none, none, 151643⟩ rfl

/-- C4: for a tokenizer of class `ChatGLMTokenizer`, normalization
returns it completely untouched, with no assertion applied. -/
theorem chatglm_normalization_untouched (tok : Tokenizer)
    (h : tok.className = "ChatGLMTokenizer") :
    normalize_tokenizer tok = some tok := by
  simp [normalize_tokenizer, h]

/-- Witness for C4 at a concrete ChatGLM tokenizer. -/
theorem chatglm_normalization_untouched_witness :
    normalize_tokenizer ⟨"ChatGLMTokenizer", none, none, none, 0⟩ =
      some ⟨"ChatGLMTokenizer", none, none, none, 0⟩ :=
  chatglm_normalization_untouched ⟨"ChatGLMTokenizer", none, none, none, 0⟩ rfl

/-- C2: for a tokenizer whose class is neither `QWenTokenizer` nor
`ChatGLMTokenizer`, normalization fails (fatal assertion) when bos or
eos is missing; otherwise it sets pad to eos exactly when pad was unset,
leaves an already-set pad unchanged, and leaves bos and eos as they
were. -/
theorem nonexempt_normalization (tok : Tokenizer)
    (hq : tok.className ≠ "QWenTokenizer")
    (hg : tok.className ≠ "ChatGLMTokenizer") :
    ((tok.eos_token_id = none ∨ tok.bos_token_id = none) →
        normalize_tokenizer tok = none)
    ∧ (tok.eos_token_id ≠ none → tok.bos_token_id ≠ none →
        ∃ t, normalize_tokenizer tok = some t
          ∧ (tok.pad_token_id = none → t.pad_token_id = tok.eos_token_id)
          ∧ (tok.pad_token_id ≠ none → t.pad_token_id = tok.pad_token_id)
          ∧ t.bos_token_id = tok.bos_token_id
          ∧ t.eos_token_id = tok.eos_token_id) := by
  constructor
  · rintro (he | hb)
    · simp [normalize_tokenizer, hq, hg, he]
    · rcases hc : tok.eos_token_id with _ | e
      · simp [normalize_tokenizer, hq, hg, hc]
      · simp [normalize_tokenizer, hq, hg, hc, hb]
  · intro he hb
    refine ⟨{ tok with
      pad_token_id :=
        if tok.pad_token_id = none then tok.eos_token_id else tok.pad_token_id },
      ?_, ?_, ?_, rfl, rfl⟩
    · simp [normalize_tokenizer, hq, hg, he, hb]
    · intro hp; simp [hp]
    · intro hp; simp [hp]

/-- Witness for C2 at a concrete non-exempt tokenizer with bos/eos set
and pad unset. -/
theorem nonexempt_normalization_witness :
    ((Option.some 2 = none ∨ Option.some 1 = none) →
        normalize_tokenizer ⟨"LlamaTokenizer", none, some 1, some 2, 0⟩ = none)
    ∧ (Option.some 2 ≠ none → Option.some 1 ≠ none →
        ∃ t, normalize_tokenizer ⟨"LlamaTokenizer", none, some 1, some 2, 0⟩ = some t
          ∧ ((none : Option Nat) = none → t.pad_token_id = some 2)
          ∧ ((none : Option Nat) ≠ none → t.pad_token_id = none)
          ∧ t.bos_token_id = some 1
          ∧ t.eos_token_id = some 2) := by
  exact nonexempt_normalization ⟨"LlamaTokenizer", none, some 1, some 2, 0⟩
    (by decide) (by decide)

/-- C5: whenever `task_type` is `pretrain`, the selector returns the
`LazyPretrainDataset` paired with the `PretrainCollator`, regardless of
the model name. -/
theorem pretrain_dispatch (args : CustomizedArguments) (tok : Tokenizer)
    (h : args.task_type = "pretrain") :
    select_dataset_collator args tok =
      .ok (.LazyPretrainDataset args.train_file tok
             args.max_seq_length args.tokenize_num_workers,
           .PretrainCollator tok args.max_seq_length) := by
  simp [select_dataset_collator, h]

/-- Witness for C5 at a concrete pretrain configuration whose model name
contains the qwen marker. -/
theorem pretrain_dispatch_witness :
    select_dataset_collator
        ⟨"Qwen-7B", "pretrain", "data.jsonl", 1024, 4⟩
        ⟨"QWenTokenizer", some 0, some 0, some 0, 0⟩ =
      .ok (.LazyPretrainDataset "data.jsonl"
             ⟨"QWenTokenizer", some 0, some 0, some 0, 0⟩ 1024 4,
           .PretrainCollator ⟨"QWenTokenizer", some 0, some 0, some 0, 0⟩ 1024) :=
  pretrain_dispatch ⟨"Qwen-7B", "pretrain", "data.jsonl", 1024, 4⟩
    ⟨"QWenTokenizer", some 0, some 0, some 0, 0⟩ rfl

/-- C1: with `task_type` equal to `sft`, the model name is matched
case-insensitively against the ordered marker list chatglm2, chatglm3,
mistral/mixtral, zephyr, qwen; the first marker that occurs in the name
selects that family's dataset (each paired with the sft collator), and
a name containing no marker selects the generic `SFTDataset`. -/
theorem sft_family_dispatch (args : CustomizedArguments) (tok : Tokenizer)
    (hsft : args.task_type = "sft") :
    (pyIn "chatglm2" (pyLower args.model_name_or_path) = true →
      select_dataset_collator args tok =
        .ok (.ChatGLM2SFTDataset args.train_file tok args.max_seq_length,
             .SFTDataCollator tok args.max_seq_length))
    ∧ (pyIn "chatglm2" (pyLower args.model_name_or_path) = false →
       pyIn "chatglm3" (pyLower args.model_name_or_path) = true →
      select_dataset_collator args tok =
        .ok (.ChatGLM3SFTDataset args.train_file tok args.max_seq_length,
             .SFTDataCollator tok args.max_seq_length))
    ∧ (pyIn "chatglm2" (pyLower args.model_name_or_path) = false →
       pyIn "chatglm3" (pyLower args.model_name_or_path) = false →
       (pyIn "mistral" (pyLower args.model_name_or_path) = true ∨
        pyIn "mixtral" (pyLower args.model_name_or_path) = true) →
      select_dataset_collator args tok =
        .ok (.MistralSFTDataset args.train_file tok args.max_seq_length,
             .SFTDataCollator tok args.max_seq_length))
    ∧ (pyIn "chatglm2" (pyLower args.model_name_or_path) = false →
       pyIn "chatglm3" (pyLower args.model_name_or_path) = false →
       pyIn "mistral" (pyLower args.model_name_or_path) = false →
       pyIn "mixtral" (pyLower args.model_name_or_path) = false →
       pyIn "zephyr" (pyLower args.model_name_or_path) = true →
      select_dataset_collator args tok =
        .ok (.ZephyrSFTDataset args.train_file tok args.max_seq_length,
             .SFTDataCollator tok args.max_seq_length))
    ∧ (pyIn "chatglm2" (pyLower args.model_name_or_path) = false →
       pyIn "chatglm3" (pyLower args.model_name_or_path) = false →
       pyIn "mistral" (pyLower args.model_name_or_path) = false →
       pyIn "mixtral" (pyLower args.model_name_or_path) = false →
       pyIn "zephyr" (pyLower args.model_name_or_path) = false →
       pyIn "qwen" (pyLower args.model_name_or_path) = true →
      select_dataset_collator args tok =
        .ok (.QwenSFTDataset args.train_file tok args.max_seq_length,
             .SFTDataCollator tok args.max_seq_length))
    ∧ (pyIn "chatglm2" (pyLower args.model_name_or_path) = false →
       pyIn "chatglm3" (pyLower args.model_name_or_path) = false →
       pyIn "mistral" (pyLower args.model_name_or_path) = false →
       pyIn "mixtral" (pyLower args.model_name_or_path) = false →
       pyIn "zephyr" (pyLower args.model_name_or_path) = false →
       pyIn "qwen" (pyLower args.model_name_or_path) = false →
      select_dataset_collator args tok =
        .ok (.SFTDataset args.train_file tok args.max_seq_length,
             .SFTDataCollator tok args.max_seq_length)) := by
  refine ⟨?_, ?_, ?_, ?_, ?_, ?_⟩
  · intro h1
    simp [select_dataset_collator, hsft, h1]
  · intro h1 h2
    simp [select_dataset_collator, hsft, h1, h2]
  · rintro h1 h2 (h3 | h3) <;>
      simp [select_dataset_collator, hsft, h1, h2, h3]
  · intro h1 h2 h3 h4 h5
    simp [select_dataset_collator, hsft, h1, h2, h3, h4, h5]
  · intro h1 h2 h3 h4 h5 h6
    simp [select_dataset_collator, hsft, h1, h2, h3, h4, h5, h6]
  · intro h1 h2 h3 h4 h5 h6
    simp [select_dataset_collator, hsft, h1, h2, h3, h4, h5, h6]

/-- Witness for C1: the qwen branch fires on the concrete name
`Qwen-7B-Chat` under sft. -/
theorem sft_family_dispatch_witness :
    select_dataset_collator
        ⟨"Qwen-7B-Chat", "sft", "data.jsonl", 1024, 1⟩
        ⟨"QWenTokenizer", some 0, some 0, some 0, 0⟩ =
      .ok (.QwenSFTDataset "data.jsonl"
             ⟨"QWenTokenizer", some 0, some 0, some 0, 0⟩ 1024,
           .SFTDataCollator ⟨"QWenTokenizer", some 0, some 0, some 0, 0⟩ 1024) := by
  exact (sft_family_dispatch
      ⟨"Qwen-7B-Chat", "sft", "data.jsonl", 1024, 1⟩
      ⟨"QWenTokenizer", some 0, some 0, some 0, 0⟩ rfl).2.2.2.2.1
    (by decide) (by decide) (by decide) (by decide) (by decide) (by decide)

/-- C6: for a `task_type` that is neither `sft` nor `pretrain`,
`init_components` ends with a fatal assertion error and no dataset or
collator has been constructed. -/
theorem invalid_task_type_aborts (args : CustomizedArguments) (tok : Tokenizer)
    (h1 : args.task_type ≠ "sft") (h2 : args.task_type ≠ "pretrain") :
    (init_components args tok).error.isSome = true
    ∧ (init_components args tok).train_dataset = none
    ∧ (init_components args tok).data_collator = none := by
  unfold init_components
  cases hn : normalize_tokenizer tok with
  | none => exact ⟨rfl, rfl, rfl⟩
  | some tok1 =>
    have hs : select_dataset_collator args tok1 =
        .error "task_type should be in [sft, pretrain]" := by
      simp [select_dataset_collator, h1, h2]
    simp [hs]

/-- Witness for C6 at a concrete invalid task type. -/
theorem invalid_task_type_aborts_witness :
    (init_components ⟨"Qwen-7B", "rlhf", "data.jsonl", 1024, 1⟩
        ⟨"QWenTokenizer", none, none, none, 151643⟩).error.isSome = true
    ∧ (init_components ⟨"Qwen-7B", "rlhf", "data.jsonl", 1024, 1⟩
        ⟨"QWenTokenizer", none, none, none, 151643⟩).train_dataset = none
    ∧ (init_components ⟨"Qwen-7B", "rlhf", "data.jsonl", 1024, 1⟩
        ⟨"QWenTokenizer", none, none, none, 151643⟩).data_collator = none := by
  exact invalid_task_type_aborts ⟨"Qwen-7B", "rlhf", "data.jsonl", 1024, 1⟩
    ⟨"QWenTokenizer", none, none, none, 151643⟩ (by decide) (by decide)

/-- C10: tokenizer normalization runs before the task-type assertion:
with an invalid `task_type` and a tokenizer whose normalization
succeeds, `init_components` fails with the task-type assertion message,
yet the tokenizer it leaves behind is the normalized one (the mutation
is not undone), the normalization event precedes the failure, and no
dataset was built. -/
theorem normalization_precedes_task_assert (args : CustomizedArguments)
    (tok tok1 : Tokenizer)
    (h1 : args.task_type ≠ "sft") (h2 : args.task_type ≠ "pretrain")
    (hn : normalize_tokenizer tok = some tok1) :
    (init_components args tok).error =
        some "task_type should be in [sft, pretrain]"
    ∧ (init_components args tok).tokenizer = tok1
    ∧ (init_components args tok).events =
        [Event.loadModel, Event.loadTokenizer, Event.normalizeTokenizer]
    ∧ (init_components args tok).train_dataset = none := by
  have hs : select_dataset_collator args tok1 =
      .error "task_type should be in [sft, pretrain]" := by
    simp [select_dataset_collator, h1, h2]
  unfold init_components
  simp [hn, hs]

/-- Witness for C10: a Qwen tokenizer whose pad identifier was `None`
is already mutated (pad set to `eod_id`) when the invalid-task-type
assertion fires. -/
theorem normalization_precedes_task_assert_witness :
    ((init_components ⟨"Qwen-7B", "rlhf", "data.jsonl", 1024, 1⟩
          ⟨"QWenTokenizer", none, none, none, 151643⟩).error =
        some "task_type should be in [sft, pretrain]"
      ∧ (init_components ⟨"Qwen-7B", "rlhf", "data.jsonl", 1024, 1⟩
          ⟨"QWenTokenizer", none, none, none, 151643⟩).tokenizer =
        ⟨"QWenTokenizer", some 151643, some 151643, some 151643, 151643⟩
      ∧ (init_components ⟨"Qwen-7B", "rlhf", "data.jsonl", 1024, 1⟩
          ⟨"QWenTokenizer", none, none, none, 151643⟩).events =
        [Event.loadModel, Event.loadTokenizer, Event.normalizeTokenizer]
      ∧ (init_components ⟨"Qwen-7B", "rlhf", "data.jsonl", 1024, 1⟩
          ⟨"QWenTokenizer", none, none, none, 151643⟩).train_dataset = none)
    ∧ (⟨"QWenTokenizer", some 151643, some 151643, some 151643, 151643⟩ : Tokenizer) ≠
        ⟨"QWenTokenizer", none, none, none, 151643⟩ := by
  refine ⟨?_, by decide⟩
  exact normalization_precedes_task_assert
    ⟨"Qwen-7B", "rlhf", "data.jsonl", 1024, 1⟩
    ⟨"QWenTokenizer", none, none, none, 151643⟩
    ⟨"QWenTokenizer", some 151643, some 151643, some 151643, 151643⟩
    (by decide) (by decide) (by decide)

/-- Helper: a run whose `init_components` succeeds produces exactly the
call chain of the source, in source order. -/
theorem main_events_of_success (args : CustomizedArguments) (tok : Tokenizer)
    (h : (init_components args tok).error = none) :
    main_events args tok =
      [Event.parseArgs, Event.loadModel, Event.loadTokenizer,
       Event.normalizeTokenizer, Event.buildDataset, Event.buildCollator,
       Event.buildTrainer, Event.trainerTrain, Event.saveModel,
       Event.logMetrics, Event.saveMetrics, Event.saveState] := by
  cases hn : normalize_tokenizer tok with
  | none =>
    exfalso
    simp [init_components, hn] at h
  | some tok1 =>
    cases hs : select_dataset_collator args tok1 with
    | error msg =>
      exfalso
      simp [init_components, hn, hs] at h
    | ok p =>
      obtain ⟨ds, dc⟩ := p
      simp [main_events, init_components, hn, hs]

/-- C7: whenever training completes (no fatal assertion in component
initialization), `main` issues the model/tokenizer save strictly before
the metrics save and strictly before the trainer-state save. -/
theorem save_model_before_metrics (args : CustomizedArguments) (tok : Tokenizer)
    (h : (init_components args tok).error = none) :
    Event.saveModel ∈ main_events args tok
    ∧ eventIdx (main_events args tok) Event.saveModel <
        eventIdx (main_events args tok) Event.saveMetrics
    ∧ eventIdx (main_events args tok) Event.saveModel <
        eventIdx (main_events args tok) Event.saveState := by
  rw [main_events_of_success args tok h]
  refine ⟨by decide, by decide, by decide⟩

/-- Witness for C7 at a concrete successful sft run. -/
theorem save_model_before_metrics_witness :
    Event.saveModel ∈ main_events ⟨"Qwen-7B", "sft", "data.jsonl", 1024, 1⟩
        ⟨"QWenTokenizer", none, none, none, 151643⟩
    ∧ eventIdx (main_events ⟨"Qwen-7B", "sft", "data.jsonl", 1024, 1⟩
          ⟨"QWenTokenizer", none, none, none, 151643⟩) Event.saveModel <
        eventIdx (main_events ⟨"Qwen-7B", "sft", "data.jsonl", 1024, 1⟩
          ⟨"QWenTokenizer", none, none, none, 151643⟩) Event.saveMetrics
    ∧ eventIdx (main_events ⟨"Qwen-7B", "sft", "data.jsonl", 1024, 1⟩
          ⟨"QWenTokenizer", none, none, none, 151643⟩) Event.saveModel <
        eventIdx (main_events ⟨"Qwen-7B", "sft", "data.jsonl", 1024, 1⟩
          ⟨"QWenTokenizer", none, none, none, 151643⟩) Event.saveState := by
  exact save_model_before_metrics ⟨"Qwen-7B", "sft", "data.jsonl", 1024, 1⟩
    ⟨"QWenTokenizer", none, none, none, 151643⟩ (by decide)

/-- C8 counterexample: on a concrete successful run, the tokenizer is
NOT loaded before the model — the model-loading call comes first in the
call chain, refuting the claimed parse → load tokenizer → load model
order. -/
theorem tokenizer_not_loaded_before_model :
    ¬ (eventIdx (main_events ⟨"Qwen-7B", "sft", "data.jsonl", 1024, 1⟩
          ⟨"QWenTokenizer", none, none, none, 151643⟩) Event.loadTokenizer <
        eventIdx (main_events ⟨"Qwen-7B", "sft", "data.jsonl", 1024, 1⟩
          ⟨"QWenTokenizer", none, none, none, 151643⟩) Event.loadModel) := by
  decide

/-- C8 amended: the layer executes one sequential call chain in the
order parse arguments, load model, load tokenizer, normalize tokenizer,
build dataset, build collator, build trainer, train, save — in
particular the model is loaded before the tokenizer. -/
theorem call_chain_order (args : CustomizedArguments) (tok : Tokenizer)
    (h : (init_components args tok).error = none) :
    main_events args tok =
      [Event.parseArgs, Event.loadModel, Event.loadTokenizer,
       Event.normalizeTokenizer, Event.buildDataset, Event.buildCollator,
       Event.buildTrainer, Event.trainerTrain, Event.saveModel,
       Event.logMetrics, Event.saveMetrics, Event.saveState]
    ∧ eventIdx (main_events args tok) Event.loadModel <
        eventIdx (main_events args tok) Event.loadTokenizer := by
  have he := main_events_of_success args tok h
  rw [he]
  exact ⟨rfl, by decide⟩

/-- Witness for the amended C8 at a concrete successful run. -/
theorem call_chain_order_witness :
    main_events ⟨"Qwen-7B", "sft", "data.jsonl", 1024, 1⟩
        ⟨"QWenTokenizer", none, none, none, 151643⟩ =
      [Event.parseArgs, Event.loadModel, Event.loadTokenizer,
       Event.normalizeTokenizer, Event.buildDataset, Event.buildCollator,
       Event.buildTrainer, Event.trainerTrain, Event.saveModel,
       Event.logMetrics, Event.saveMetrics, Event.saveState]
    ∧ eventIdx (main_events ⟨"Qwen-7B", "sft", "data.jsonl", 1024, 1⟩
          ⟨"QWenTokenizer", none, none, none, 151643⟩) Event.loadModel <
        eventIdx (main_events ⟨"Qwen-7B", "sft", "data.jsonl", 1024, 1⟩
          ⟨"QWenTokenizer", none, none, none, 151643⟩) Event.loadTokenizer := by
  exact call_chain_order ⟨"Qwen-7B", "sft", "data.jsonl", 1024, 1⟩
    ⟨"QWenTokenizer", none, none, none, 151643⟩ (by decide)

/-- C9: when `WORLD_SIZE` is absent or equals 1 (the distributed branch
is not taken, so `device_map` is never bound) and DeepSpeed ZeRO-3 is
disabled, the model-loading call evaluates the unbound name
`device_map` and raises `NameError`. -/
theorem device_map_unbound_when_not_ddp (env_world_size : Option Nat)
    (local_rank : Nat)
    (h : env_world_size = none ∨ env_world_size = some 1) :
    local_env (world_size_of env_world_size) local_rank = []
    ∧ device_map_arg (local_env (world_size_of env_world_size) local_rank) false =
        .error "NameError: name device_map is not defined" := by
  have hw : world_size_of env_world_size = 1 := by
    rcases h with h | h <;> simp [world_size_of, h]
  rw [hw]
  exact ⟨rfl, rfl⟩

/-- Witness for C9 with `WORLD_SIZE` absent from the environment. -/
theorem device_map_unbound_when_not_ddp_witness :
    local_env (world_size_of none) 0 = []
    ∧ device_map_arg (local_env (world_size_of none) 0) false =
        .error "NameError: name device_map is not defined" := by
  exact device_map_unbound_when_not_ddp none 0 (Or.inl rfl)
